import Mathlib

/-!
Shallow embedding of the contacts repository layer
(`src/repository/contacts.py`) of the REST-API contacts backend,
together with its data model (`src/entity/models.py`,
`src/schema/contact.py`), and proofs of the specified properties.

Dates are Gregorian calendar dates; Python `date` comparison is
lexicographic on (year, month, day) and `timedelta(days = 7)` is seven
successive calendar-day increments.  The database is a list of contact
rows plus the autoincrement counter; each operation also reports the
session events it performed (commit, rollback, close), mirroring the
`await db.commit() / db.rollback() / db.close()` calls on each path of
the Python code.
-/

/-- A calendar date, as Python's `datetime.date`. -/
structure Date where
  year : Nat
  month : Nat
  day : Nat
deriving Repr, DecidableEq

/-- Gregorian leap-year test. -/
def isLeap (y : Nat) : Bool :=
  y % 4 == 0 && (y % 100 != 0 || y % 400 == 0)

/-- Number of days in a month of a given year. -/
def daysInMonth (y m : Nat) : Nat :=
  if m == 2 then (if isLeap y then 29 else 28)
  else if m == 4 || m == 6 || m == 9 || m == 11 then 30
  else 31

/-- The next calendar day. -/
def nextDay (d : Date) : Date :=
  if d.day < daysInMonth d.year d.month then ⟨d.year, d.month, d.day + 1⟩
  else if d.month < 12 then ⟨d.year, d.month + 1, 1⟩
  else ⟨d.year + 1, 1, 1⟩

/-- `d + timedelta(days = n)`. -/
def addDays (d : Date) : Nat → Date
  | 0 => d
  | n + 1 => addDays (nextDay d) n

/-- Python `a <= b` on dates: lexicographic on (year, month, day). -/
def dateLe (a b : Date) : Bool :=
  decide (a.year < b.year ∨ (a.year = b.year ∧
    (a.month < b.month ∨ (a.month = b.month ∧ a.day ≤ b.day))))

/-- The `users` table row (`src/entity/models.py`); only the primary key
matters for contact ownership. -/
structure User where
  id : Nat
deriving Repr, DecidableEq

/-- The `contacts` table row (`src/entity/models.py`).  `createdAt` and
`updatedAt` are abstract clock ticks; `userId` is the nullable foreign
key to `users.id`. -/
structure Contact where
  id : Nat
  name : String
  surname : String
  email : String
  phone : String
  birthday : Date
  createdAt : Nat
  updatedAt : Nat
  userId : Option Nat
deriving Repr, DecidableEq

/-- `ContactSchema` (`src/schema/contact.py`): the request body for
creating a contact. -/
structure ContactSchema where
  name : String
  surname : String
  email : String
  phone : String
  birthday : Date
deriving Repr, DecidableEq

/-- `ContactUpdate` (`src/schema/contact.py`): the full-replace request
body for updating a contact. -/
structure ContactUpdate where
  name : String
  surname : String
  email : String
  phone : String
  birthday : Date
deriving Repr, DecidableEq

/-- The relational store: the `contacts` rows and the autoincrement
counter for server-assigned ids. -/
structure DB where
  contacts : List Contact
  nextId : Nat
deriving Repr, DecidableEq

/-- The session events an operation performed before returning:
`await db.commit()`, `await db.rollback()`, `await db.close()`. -/
structure SessionLog where
  committed : Bool
  rolledBack : Bool
  closed : Bool
deriving Repr, DecidableEq

/-- Outcome of a repository call: a value, or an `HTTPException`
with a status code and a detail message. -/
inductive CResult (α : Type) where
  | ok : α → CResult α
  | httpError : Nat → String → CResult α
deriving Repr, DecidableEq

/-- A string folded to lower case, character by character. -/
def lowerStr (s : String) : List Char :=
  s.toList.map Char.toLower

/-- SQL `a ILIKE '%pat%'`: case-insensitive substring match. -/
def containsCI (field pat : String) : Bool :=
  decide (List.IsInfix (lowerStr pat) (lowerStr field))

/-- Python truthiness of an `Optional[str]` filter argument:
`None` and `""` are falsy. -/
def truthy : Option String → Bool
  | none => false
  | some s => !(s == "")

/-- The WHERE clause built by `get_contacts`
(`src/repository/contacts.py` lines 31-38): ownership scoping by
`filter_by(user=user)`, then one `ilike` clause per truthy filter. -/
def contactRowMatch (user : User) (name surname email : Option String)
    (c : Contact) : Bool :=
  c.userId == some user.id
  && (if truthy name then containsCI c.name (name.getD "") else true)
  && (if truthy surname then containsCI c.surname (surname.getD "") else true)
  && (if truthy email then containsCI c.email (email.getD "") else true)

/-- `get_contacts` (`src/repository/contacts.py`): SELECT with the
ownership/filter WHERE clause, OFFSET, LIMIT; the session is closed
before returning. -/
def get_contacts (limit offset : Nat) (name surname email : Option String)
    (db : DB) (user : User) : List Contact × SessionLog :=
  (((db.contacts.filter (contactRowMatch user name surname email)).drop offset).take limit,
   ⟨false, false, true⟩)

/-- `get_contact` (`src/repository/contacts.py`): single row by id,
scoped to the owner; the session is closed before returning. -/
def get_contact (contact_id : Nat) (db : DB) (user : User) :
    Option Contact × SessionLog :=
  (db.contacts.find? (fun c => c.id == contact_id && c.userId == some user.id),
   ⟨false, false, true⟩)

/-- `create_contact` (`src/repository/contacts.py`).  `today` is
`date.today()`, `now` the commit timestamp, `dbFail` whether the
persistence layer raises `SQLAlchemyError` (e.g. a unique-email
violation) with message `cause`.  The birthday check precedes the
`try` block, so its `HTTPException(400)` is raised before any database
interaction and before the `finally: await db.close()`. -/
def create_contact (body : ContactSchema) (db : DB) (today : Date)
    (now : Nat) (dbFail : Bool) (cause : String) (user : User) :
    CResult Contact × DB × SessionLog :=
  if dateLe today body.birthday then
    (.httpError 400 "Birthday must be in the past", db, ⟨false, false, false⟩)
  else if dbFail then
    (.httpError 500 ("Database error: " ++ cause), db, ⟨false, true, true⟩)
  else
    let c : Contact :=
      { id := db.nextId, name := body.name, surname := body.surname,
        email := body.email, phone := body.phone, birthday := body.birthday,
        createdAt := now, updatedAt := now, userId := some user.id }
    (.ok c, ⟨db.contacts ++ [c], db.nextId + 1⟩, ⟨true, false, true⟩)

/-- The full-replace of an existing row by an update body
(`update_contact`'s `setattr` loop over `model_dump()`); the database
refreshes `updated_at` on commit (`onupdate=func.now()`). -/
def applyUpdate (upd : ContactUpdate) (now : Nat) (c : Contact) : Contact :=
  { c with
    name := upd.name
    surname := upd.surname
    email := upd.email
    phone := upd.phone
    birthday := upd.birthday
    updatedAt := now }

/-- `update_contact` (`src/repository/contacts.py`): looks up the row
by id scoped to the owner; raises `HTTPException(404)` without closing
the session when absent; otherwise overwrites every field from the
update body, commits and closes. -/
def update_contact (contact_id : Nat) (upd : ContactUpdate) (db : DB)
    (now : Nat) (user : User) : CResult Contact × DB × SessionLog :=
  match db.contacts.find? (fun c => c.id == contact_id && c.userId == some user.id) with
  | none => (.httpError 404 "Contact not found", db, ⟨false, false, false⟩)
  | some c =>
    let c' := applyUpdate upd now c
    (.ok c',
     ⟨db.contacts.map (fun x =>
        if x.id == contact_id && x.userId == some user.id then c' else x),
      db.nextId⟩,
     ⟨true, false, true⟩)

/-- `delete_contact` (`src/repository/contacts.py`): looks up the row
by id scoped to the owner; raises `HTTPException(404)` when absent;
otherwise deletes the row, commits, and returns the prior state.
Neither path calls `db.close()`. -/
def delete_contact (contact_id : Nat) (db : DB) (user : User) :
    CResult Contact × DB × SessionLog :=
  match db.contacts.find? (fun c => c.id == contact_id && c.userId == some user.id) with
  | none => (.httpError 404 "Contact not found", db, ⟨false, false, false⟩)
  | some c =>
    (.ok c,
     ⟨db.contacts.filter (fun x => !(x.id == contact_id && x.userId == some user.id)),
      db.nextId⟩,
     ⟨true, false, false⟩)

/-- The SQL filter of `get_upcoming_birthdays`
(`src/repository/contacts.py` lines 184-209), literally: the outer
`or_` of the two `and_` branches, with `extract('month'/'day')` on the
birthday.  Note the query does not mention the user. -/
def birthdayWindowMatch (today next_week : Date) (b : Date) : Bool :=
  (b.month == today.month && decide (today.day ≤ b.day)
     && b.month == next_week.month && decide (b.day ≤ next_week.day))
  || (today.month != next_week.month
      && ((b.month == today.month && decide (today.day ≤ b.day))
          || (b.month == next_week.month && decide (b.day ≤ next_week.day))))

/-- `get_upcoming_birthdays` (`src/repository/contacts.py`): `today` is
`date.today()`, `next_week = today + timedelta(days=7)`; selects every
contact row whose birthday passes the window filter — the `user`
argument is accepted but never used in the query — and closes the
session. -/
def get_upcoming_birthdays (today : Date) (db : DB) (_user : User) :
    List Contact × SessionLog :=
  let next_week := addDays today 7
  (db.contacts.filter (fun c => birthdayWindowMatch today next_week c.birthday),
   ⟨false, false, true⟩)

/-- The spec's birthday-window rule, written from the spec's words
(§4.2 Case A / Case B), to be compared with the code's filter. -/
def specBirthdayRule (today horizon : Date) (b : Date) : Bool :=
  if today.month == horizon.month then
    b.month == today.month && decide (today.day ≤ b.day) && decide (b.day ≤ horizon.day)
  else
    (b.month == today.month && decide (today.day ≤ b.day))
    || (b.month == horizon.month && decide (b.day ≤ horizon.day))

/-- The spec's words for the `listContacts` row condition: belongs to
the owner, and every supplied filter matches case-insensitively as a
substring (filters conjunctive). -/
def specListMatch (user : User) (name surname email : Option String)
    (c : Contact) : Bool :=
  c.userId == some user.id
  && (match name with | none => true | some s => containsCI c.name s)
  && (match surname with | none => true | some s => containsCI c.surname s)
  && (match email with | none => true | some s => containsCI c.email s)

/-! ## Example rows and bodies used as concrete inputs -/

/-- A contact owned by user 2, with a birthday inside the window of
2024-06-01. -/
def strayContact : Contact :=
  ⟨10, "Stray", "Row", "stray@example.com", "555", ⟨1990,6,3⟩, 0, 0, some 2⟩

/-- A well-formed create body with a past birthday. -/
def sampleBody : ContactSchema :=
  ⟨"Alice", "Smith", "alice@example.com", "123456", ⟨1990,5,4⟩⟩

/-- A create body with a future birthday. -/
def futureBody : ContactSchema :=
  ⟨"Bob", "Jones", "bob@example.com", "999", ⟨2030,1,1⟩⟩

/-- The requesting owner in the concrete scenarios. -/
def ownerU : User := ⟨1⟩

/-- A stored contact owned by user 1, to be updated or deleted. -/
def storedContact : Contact :=
  ⟨7, "Old", "Name", "old@example.com", "111", ⟨1980,2,2⟩, 1, 1, some 1⟩

/-- A full-replace update body. -/
def replaceBody : ContactUpdate :=
  ⟨"New", "Fresh", "new@example.com", "222", ⟨1981,3,3⟩⟩

/-- A contact of user 1 about to be deleted. -/
def victimContact : Contact :=
  ⟨3, "Del", "Me", "delme@example.com", "333", ⟨1990,1,1⟩, 0, 0, some 1⟩

/-- Contacts for the listing scenario: one owned by the requesting
user, one by another user, both matching the name filter. -/
def mine1 : Contact :=
  ⟨1, "Anna", "Lee", "anna@example.com", "1", ⟨1990,1,1⟩, 0, 0, some 1⟩

/-- See `mine1`. -/
def notMine : Contact :=
  ⟨2, "Anna", "Ray", "ray@example.com", "2", ⟨1990,1,1⟩, 0, 0, some 2⟩

/-! ## Helper lemmas -/

/-- The code's birthday-window filter coincides with the spec's
Case A / Case B rule: when the months agree the second `or_` branch is
vacuous and the first is Case A; when they differ the first branch is
unsatisfiable and the second is Case B. -/
lemma birthdayWindowMatch_eq_spec (t h b : Date) :
    birthdayWindowMatch t h b = specBirthdayRule t h b := by
  rw [Bool.eq_iff_iff]
  unfold birthdayWindowMatch specBirthdayRule
  by_cases hm : t.month = h.month <;> simp [hm] <;> omega

/-- An empty pattern is a substring of everything. -/
lemma containsCI_empty (f : String) : containsCI f "" = true := by
  have h : lowerStr "" = [] := rfl
  simp [containsCI, h]

/-- One `if name: ... ilike` clause of `get_contacts` agrees with the
spec's "supplied filter" reading, because the empty pattern matches
every field anyway. -/
lemma filterClause_eq (field : String) (o : Option String) :
    (if truthy o then containsCI field (o.getD "") else true)
      = (match o with | none => true | some s => containsCI field s) := by
  cases o with
  | none => rfl
  | some s =>
    by_cases hs : s = ""
    · subst hs
      simp [truthy, containsCI_empty]
    · simp [truthy, hs]

/-- The code's WHERE clause for listing equals the spec's row
condition. -/
lemma contactRowMatch_eq_spec (user : User) (nf sf ef : Option String) (c : Contact) :
    contactRowMatch user nf sf ef c = specListMatch user nf sf ef c := by
  unfold contactRowMatch specListMatch
  rw [filterClause_eq, filterClause_eq, filterClause_eq]

/-! ## Claim theorems -/

/-- C1: the claim says every contact returned by
`get_upcoming_birthdays(db, owner)` belongs to `owner`.  The code's
query never mentions the user, so it returns contacts of other users:
queried for user 1 on a store holding only a contact of user 2 whose
birthday lies in the window, the result contains that foreign
contact. -/
theorem upcoming_birthdays_returns_foreign_contact :
    (get_upcoming_birthdays ⟨2024,6,1⟩ ⟨[strayContact], 11⟩ ⟨1⟩).1 = [strayContact]
    ∧ strayContact.userId ≠ some (User.mk 1).id := by
  decide

/-- C2: a stored contact is included by `get_upcoming_birthdays` if and
only if the spec's month+day rule holds for `today` and
`horizon = today + 7 days`; and on the spec's concrete examples the
rule gives exactly the stated verdicts. -/
theorem upcoming_birthdays_window_rule :
    (∀ (today : Date) (db : DB) (user : User) (c : Contact),
      c ∈ (get_upcoming_birthdays today db user).1 ↔
        c ∈ db.contacts ∧ specBirthdayRule today (addDays today 7) c.birthday = true)
    ∧ addDays ⟨2024,1,28⟩ 7 = ⟨2024,2,4⟩
    ∧ specBirthdayRule ⟨2024,1,28⟩ ⟨2024,2,4⟩ ⟨1990,1,30⟩ = true
    ∧ specBirthdayRule ⟨2024,1,28⟩ ⟨2024,2,4⟩ ⟨1990,2,10⟩ = false
    ∧ specBirthdayRule ⟨2024,1,28⟩ ⟨2024,2,4⟩ ⟨1990,1,20⟩ = false
    ∧ addDays ⟨2024,6,1⟩ 7 = ⟨2024,6,8⟩
    ∧ specBirthdayRule ⟨2024,6,1⟩ ⟨2024,6,8⟩ ⟨1990,6,5⟩ = true
    ∧ specBirthdayRule ⟨2024,6,1⟩ ⟨2024,6,8⟩ ⟨1990,6,9⟩ = false := by
  refine ⟨?_, by decide, by decide, by decide, by decide, by decide, by decide, by decide⟩
  intro today db user c
  simp [get_upcoming_birthdays, List.mem_filter, birthdayWindowMatch_eq_spec]

/-- C3: `create_contact` answers 400 "birthday must be in the past"
exactly when the birthday is on or after today; with a strictly past
birthday and no persistence failure it persists a new contact owned by
the caller, under a server-assigned id no existing row carries. -/
theorem create_contact_validation
    (body : ContactSchema) (db : DB) (today : Date) (now : Nat)
    (dbFail : Bool) (cause : String) (user : User)
    (hfresh : ∀ x ∈ db.contacts, x.id < db.nextId) :
    ((create_contact body db today now dbFail cause user).1
        = CResult.httpError 400 "Birthday must be in the past"
      ↔ dateLe today body.birthday = true)
    ∧ (dateLe today body.birthday = false → dbFail = false →
        ∃ c, (create_contact body db today now dbFail cause user).1 = CResult.ok c
          ∧ c.userId = some user.id
          ∧ c.id = db.nextId
          ∧ (∀ x ∈ db.contacts, x.id ≠ c.id)
          ∧ (create_contact body db today now dbFail cause user).2.1.contacts
              = db.contacts ++ [c]) := by
  unfold create_contact
  by_cases hb : dateLe today body.birthday <;> by_cases hf : dbFail <;>
    simp [hb, hf]
  intro x hx
  exact Nat.ne_of_lt (hfresh x hx)

/-- C3, witnessed on an empty store with a past birthday. -/
theorem create_contact_validation_witness :
    ((create_contact sampleBody ⟨[], 1⟩ ⟨2024,6,1⟩ 5 false "" ownerU).1
        = CResult.httpError 400 "Birthday must be in the past"
      ↔ dateLe ⟨2024,6,1⟩ sampleBody.birthday = true)
    ∧ (∃ c, (create_contact sampleBody ⟨[], 1⟩ ⟨2024,6,1⟩ 5 false "" ownerU).1 = CResult.ok c
        ∧ c.userId = some ownerU.id
        ∧ c.id = (DB.mk [] 1).nextId
        ∧ (∀ x ∈ (DB.mk [] 1).contacts, x.id ≠ c.id)
        ∧ (create_contact sampleBody ⟨[], 1⟩ ⟨2024,6,1⟩ 5 false "" ownerU).2.1.contacts
            = (DB.mk [] 1).contacts ++ [c]) := by
  have h := create_contact_validation sampleBody ⟨[], 1⟩ ⟨2024,6,1⟩ 5 false "" ownerU
    (by intro x hx; simp at hx)
  exact ⟨h.1, h.2 (by decide) rfl⟩

/-- C4: updating a non-existent or non-owned id answers 404 and leaves
the store untouched (no commit, no rollback); updating an owned row
overwrites every field from the update body (full replace), stamps the
modification time, and so advances it past the stored one. -/
theorem update_contact_props
    (cid : Nat) (upd : ContactUpdate) (db : DB) (now : Nat) (user : User) :
    (db.contacts.find? (fun c => c.id == cid && c.userId == some user.id) = none →
      (update_contact cid upd db now user).1 = CResult.httpError 404 "Contact not found"
      ∧ (update_contact cid upd db now user).2.1 = db
      ∧ (update_contact cid upd db now user).2.2.committed = false
      ∧ (update_contact cid upd db now user).2.2.rolledBack = false)
    ∧ (∀ c, db.contacts.find? (fun c => c.id == cid && c.userId == some user.id) = some c →
        ∃ c', (update_contact cid upd db now user).1 = CResult.ok c'
          ∧ c'.name = upd.name ∧ c'.surname = upd.surname ∧ c'.email = upd.email
          ∧ c'.phone = upd.phone ∧ c'.birthday = upd.birthday
          ∧ c'.updatedAt = now
          ∧ (c.updatedAt < now → c.updatedAt < c'.updatedAt)
          ∧ (update_contact cid upd db now user).2.1.contacts
              = db.contacts.map (fun x =>
                  if x.id == cid && x.userId == some user.id then c' else x)) := by
  constructor
  · intro h
    unfold update_contact
    simp [h]
  · intro c h
    unfold update_contact
    simp [h, applyUpdate]

/-- C4, witnessed on a one-row store: a missing id answers 404 without
mutation, and updating the stored row replaces every field. -/
theorem update_contact_props_witness :
    ((DB.mk [storedContact] 8).contacts.find?
        (fun c => c.id == 9 && c.userId == some ownerU.id) = none →
      (update_contact 9 replaceBody ⟨[storedContact], 8⟩ 5 ownerU).1
          = CResult.httpError 404 "Contact not found"
      ∧ (update_contact 9 replaceBody ⟨[storedContact], 8⟩ 5 ownerU).2.1 = ⟨[storedContact], 8⟩
      ∧ (update_contact 9 replaceBody ⟨[storedContact], 8⟩ 5 ownerU).2.2.committed = false
      ∧ (update_contact 9 replaceBody ⟨[storedContact], 8⟩ 5 ownerU).2.2.rolledBack = false)
    ∧ (∃ c', (update_contact 7 replaceBody ⟨[storedContact], 8⟩ 5 ownerU).1 = CResult.ok c'
        ∧ c'.name = replaceBody.name ∧ c'.surname = replaceBody.surname
        ∧ c'.email = replaceBody.email
        ∧ c'.phone = replaceBody.phone ∧ c'.birthday = replaceBody.birthday
        ∧ c'.updatedAt = 5
        ∧ (storedContact.updatedAt < 5 → storedContact.updatedAt < c'.updatedAt)
        ∧ (update_contact 7 replaceBody ⟨[storedContact], 8⟩ 5 ownerU).2.1.contacts
            = (DB.mk [storedContact] 8).contacts.map (fun x =>
                if x.id == 7 && x.userId == some ownerU.id then c' else x)) := by
  refine ⟨(update_contact_props 9 replaceBody ⟨[storedContact], 8⟩ 5 ownerU).1, ?_⟩
  exact (update_contact_props 7 replaceBody ⟨[storedContact], 8⟩ 5 ownerU).2
    storedContact (by decide)

/-- C5: deleting a non-existent or non-owned id answers 404 and leaves
the store unchanged; deleting an owned row returns its prior state and
removes it, so a subsequent `get_contact` on the same id and owner
finds nothing. -/
theorem delete_contact_props
    (cid : Nat) (db : DB) (user : User) :
    (db.contacts.find? (fun c => c.id == cid && c.userId == some user.id) = none →
      (delete_contact cid db user).1 = CResult.httpError 404 "Contact not found"
      ∧ (delete_contact cid db user).2.1 = db)
    ∧ (∀ c, db.contacts.find? (fun c => c.id == cid && c.userId == some user.id) = some c →
        (delete_contact cid db user).1 = CResult.ok c
        ∧ (get_contact cid (delete_contact cid db user).2.1 user).1 = none) := by
  constructor
  · intro h
    unfold delete_contact
    simp [h]
  · intro c h
    unfold delete_contact
    simp [h, get_contact]
    intro x hx hor heq
    rcases hor with h1 | h2
    · exact absurd heq h1
    · exact h2

/-- C5, witnessed on a one-row store. -/
theorem delete_contact_props_witness :
    ((DB.mk [storedContact] 8).contacts.find?
        (fun c => c.id == 9 && c.userId == some ownerU.id) = none →
      (delete_contact 9 ⟨[storedContact], 8⟩ ownerU).1 = CResult.httpError 404 "Contact not found"
      ∧ (delete_contact 9 ⟨[storedContact], 8⟩ ownerU).2.1 = ⟨[storedContact], 8⟩)
    ∧ ((delete_contact 7 ⟨[storedContact], 8⟩ ownerU).1 = CResult.ok storedContact
      ∧ (get_contact 7 (delete_contact 7 ⟨[storedContact], 8⟩ ownerU).2.1 ownerU).1 = none) := by
  refine ⟨(delete_contact_props 9 ⟨[storedContact], 8⟩ ownerU).1, ?_⟩
  exact (delete_contact_props 7 ⟨[storedContact], 8⟩ ownerU).2 storedContact (by decide)

/-- C6: listing equals the spec's row condition filtered, offset, then
limited; every returned contact belongs to the requesting owner; the
result count is bounded by `limit`; and `get_contact` only ever returns
a row owned by the requester under the requested id. -/
theorem list_contacts_scoped
    (limit offset : Nat) (nf sf ef : Option String) (db : DB) (user : User) :
    ((get_contacts limit offset nf sf ef db user).1
      = ((db.contacts.filter (specListMatch user nf sf ef)).drop offset).take limit)
    ∧ (∀ c ∈ (get_contacts limit offset nf sf ef db user).1, c.userId = some user.id)
    ∧ (get_contacts limit offset nf sf ef db user).1.length ≤ limit
    ∧ (∀ cid c, (get_contact cid db user).1 = some c →
        c.userId = some user.id ∧ c.id = cid) := by
  have hfc : db.contacts.filter (contactRowMatch user nf sf ef)
      = db.contacts.filter (specListMatch user nf sf ef) :=
    List.filter_congr (fun x _ => contactRowMatch_eq_spec user nf sf ef x)
  refine ⟨by simp [get_contacts, hfc], ?_, ?_, ?_⟩
  · intro c hc
    have hmem : c ∈ db.contacts.filter (contactRowMatch user nf sf ef) :=
      List.mem_of_mem_drop (List.mem_of_mem_take hc)
    have hp := (List.mem_filter.mp hmem).2
    unfold contactRowMatch at hp
    simp [Bool.and_eq_true] at hp
    exact hp.1.1.1
  · exact List.length_take_le limit _
  · intro cid c hc
    have hp := List.find?_some hc
    simp [Bool.and_eq_true] at hp
    exact ⟨hp.2, hp.1⟩

/-- C6, witnessed on a store holding a matching contact of the owner
and a matching contact of another user. -/
theorem list_contacts_scoped_witness :
    (∀ c ∈ (get_contacts 10 0 (some "ann") none none ⟨[mine1, notMine], 3⟩ ownerU).1,
      c.userId = some ownerU.id)
    ∧ (∀ cid c, (get_contact cid ⟨[mine1, notMine], 3⟩ ownerU).1 = some c →
        c.userId = some ownerU.id ∧ c.id = cid) := by
  have h := list_contacts_scoped 10 0 (some "ann") none none ⟨[mine1, notMine], 3⟩ ownerU
  exact ⟨h.2.1, h.2.2.2⟩

/-- C7: with a past birthday and a failing persistence layer,
`create_contact` answers 500 carrying the underlying cause message, the
store is unchanged (no row survives), and a rollback was issued. -/
theorem create_contact_rollback
    (body : ContactSchema) (db : DB) (today : Date) (now : Nat)
    (cause : String) (user : User)
    (hb : dateLe today body.birthday = false) :
    (create_contact body db today now true cause user).1
        = CResult.httpError 500 ("Database error: " ++ cause)
    ∧ (create_contact body db today now true cause user).2.1 = db
    ∧ (create_contact body db today now true cause user).2.2.rolledBack = true := by
  unfold create_contact
  simp [hb]

/-- C7, witnessed with a unique-email violation message. -/
theorem create_contact_rollback_witness :
    (create_contact sampleBody ⟨[], 1⟩ ⟨2024,6,1⟩ 5 true "duplicate email" ownerU).1
        = CResult.httpError 500 ("Database error: " ++ "duplicate email")
    ∧ (create_contact sampleBody ⟨[], 1⟩ ⟨2024,6,1⟩ 5 true "duplicate email" ownerU).2.1
        = ⟨[], 1⟩
    ∧ (create_contact sampleBody ⟨[], 1⟩ ⟨2024,6,1⟩ 5 true "duplicate email" ownerU).2.2.rolledBack
        = true :=
  create_contact_rollback sampleBody ⟨[], 1⟩ ⟨2024,6,1⟩ 5 "duplicate email" ownerU (by decide)

/-- C8 counterexample: the claim says every operation releases its
database handle on every exit path, but a successful `delete_contact`
terminates without ever calling `db.close()`. -/
theorem delete_contact_leaves_session_open :
    (delete_contact 3 ⟨[victimContact], 4⟩ ownerU).1 = CResult.ok victimContact
    ∧ (delete_contact 3 ⟨[victimContact], 4⟩ ownerU).2.2.closed = false := by
  decide

/-- C8 amended: list, get-by-id and upcoming-birthdays close the
session on their query path; `create_contact` closes on success and on
persistence failure but not on validation failure (the 400 is raised
before the `try/finally`); `update_contact` closes only when the row is
found (the 404 is raised before any close); `delete_contact` never
closes on either path. -/
theorem session_close_behavior
    (limit offset : Nat) (nf sf ef : Option String) (db : DB) (user : User)
    (cid : Nat) (today : Date) (body : ContactSchema) (now : Nat) (dbFail : Bool)
    (cause : String) (upd : ContactUpdate) :
    (get_contacts limit offset nf sf ef db user).2.closed = true
    ∧ (get_contact cid db user).2.closed = true
    ∧ (get_upcoming_birthdays today db user).2.closed = true
    ∧ (dateLe today body.birthday = false →
        (create_contact body db today now dbFail cause user).2.2.closed = true)
    ∧ (dateLe today body.birthday = true →
        (create_contact body db today now dbFail cause user).2.2.closed = false)
    ∧ (∀ c, db.contacts.find? (fun c => c.id == cid && c.userId == some user.id) = some c →
        (update_contact cid upd db now user).2.2.closed = true)
    ∧ (db.contacts.find? (fun c => c.id == cid && c.userId == some user.id) = none →
        (update_contact cid upd db now user).2.2.closed = false)
    ∧ (delete_contact cid db user).2.2.closed = false := by
  refine ⟨rfl, rfl, rfl, ?_, ?_, ?_, ?_, ?_⟩
  · intro hb
    unfold create_contact
    cases hf : dbFail <;> simp [hb, hf]
  · intro hb
    unfold create_contact
    simp [hb]
  · intro c hc
    unfold update_contact
    simp [hc]
  · intro hc
    unfold update_contact
    simp [hc]
  · unfold delete_contact
    cases hf : db.contacts.find? (fun c => c.id == cid && c.userId == some user.id) <;>
      simp [hf]

/-- C8, witnessed on concrete calls of each flavour. -/
theorem session_close_behavior_witness :
    (get_contact 3 ⟨[victimContact], 4⟩ ownerU).2.closed = true
    ∧ (create_contact futureBody ⟨[victimContact], 4⟩ ⟨2024,6,1⟩ 5 false "" ownerU).2.2.closed
        = false
    ∧ (update_contact 3 replaceBody ⟨[victimContact], 4⟩ 5 ownerU).2.2.closed = true
    ∧ (delete_contact 3 ⟨[victimContact], 4⟩ ownerU).2.2.closed = false := by
  have h := session_close_behavior 10 0 none none none ⟨[victimContact], 4⟩ ownerU 3
    ⟨2024,6,1⟩ futureBody 5 false "" replaceBody
  exact ⟨h.2.1, h.2.2.2.2.1 (by decide), h.2.2.2.2.2.1 victimContact (by decide),
    h.2.2.2.2.2.2.2⟩

/-- C9: when the birthday is on or after today, `create_contact`
answers 400 before any database interaction: the store is exactly as
before, and neither a commit nor a rollback was issued. -/
theorem create_contact_validation_precedes_db
    (body : ContactSchema) (db : DB) (today : Date) (now : Nat)
    (dbFail : Bool) (cause : String) (user : User)
    (hb : dateLe today body.birthday = true) :
    (create_contact body db today now dbFail cause user).1
        = CResult.httpError 400 "Birthday must be in the past"
    ∧ (create_contact body db today now dbFail cause user).2.1 = db
    ∧ (create_contact body db today now dbFail cause user).2.2.committed = false
    ∧ (create_contact body db today now dbFail cause user).2.2.rolledBack = false := by
  unfold create_contact
  simp [hb]

/-- C9, witnessed with a future birthday. -/
theorem create_contact_validation_precedes_db_witness :
    (create_contact futureBody ⟨[], 1⟩ ⟨2024,6,1⟩ 5 true "x" ownerU).1
        = CResult.httpError 400 "Birthday must be in the past"
    ∧ (create_contact futureBody ⟨[], 1⟩ ⟨2024,6,1⟩ 5 true "x" ownerU).2.1 = ⟨[], 1⟩
    ∧ (create_contact futureBody ⟨[], 1⟩ ⟨2024,6,1⟩ 5 true "x" ownerU).2.2.committed = false
    ∧ (create_contact futureBody ⟨[], 1⟩ ⟨2024,6,1⟩ 5 true "x" ownerU).2.2.rolledBack = false :=
  create_contact_validation_precedes_db futureBody ⟨[], 1⟩ ⟨2024,6,1⟩ 5 true "x" ownerU (by decide)

/-- C10: an empty-string filter for name, surname or email is falsy in
`if name:` and so never reaches the query: listing with `some ""` in
any filter position equals listing with no filter there. -/
theorem empty_filter_ignored
    (limit offset : Nat) (nf sf ef : Option String) (db : DB) (user : User) :
    get_contacts limit offset (some "") sf ef db user
      = get_contacts limit offset none sf ef db user
    ∧ get_contacts limit offset nf (some "") ef db user
      = get_contacts limit offset nf none ef db user
    ∧ get_contacts limit offset nf sf (some "") db user
      = get_contacts limit offset nf sf none db user :=
  ⟨rfl, rfl, rfl⟩
